import Mathlib

/-!
Verification of `handlers/backend_handler.go` (backend-facing half of an HTTP
reverse proxy). The Go source is shallowly embedded below: header maps become
finite functions from key to optional value list (the semantics of a Go
`map[string][]string`, with keys in canonical MIME form as every literal in
the source already is), the wrapped network call inside
`backendTransport.RoundTrip` is abstracted by its outcome (a successful
response or an error value), and the deferred log emission is made explicit as
the list of log calls performed during one `RoundTrip`.
-/

namespace Router

/-- A Go `http.Header` / `map[string][]string`: a finite map from header key to
list of values, embedded as a function returning `none` for absent keys. -/
abbrev Header : Type := String → Option (List String)

/-- Go `http.Header.Set(key, value)`: replaces the entry for `key` with the
single-element list `[value]`. (All keys used by the source are already in
canonical MIME form, so canonicalisation is the identity here.) -/
def Header.set (h : Header) (key value : String) : Header :=
  fun k => if k = key then some [value] else h k

/-- The `nil` header map of a zero-value `http.Response` (no keys present). -/
def emptyHeader : Header := fun _ => none

/-- Source function `populateViaHeader` (backend_handler.go lines 41-47):
`via := httpVersion + " router"`; if the key `"Via"` is present (Go comma-ok
map index), `via = strings.Join(prior, ", ") + ", " + via`; then
`header.Set("Via", via)`. -/
def populateViaHeader (header : Header) (httpVersion : String) : Header :=
  match header "Via" with
  | some prior =>
      Header.set header "Via"
        (String.intercalate ", " prior ++ (", " ++ (httpVersion ++ " router")))
  | none => Header.set header "Via" (httpVersion ++ " router")

/-- The parts of a Go `url.URL` that the handler uses. -/
structure URL where
  scheme : String
  host : String
  path : String
deriving DecidableEq

/-- The parts of a Go `http.Request` that the director hook reads or writes. -/
structure Request where
  method : String
  url : URL
  host : String
  protoMajor : Nat
  protoMinor : Nat
  header : Header

/-- Go `fmt.Sprintf("%d.%d", major, minor)`. -/
def httpVersionString (major minor : Nat) : String :=
  toString major ++ "." ++ toString minor

/-- Lines 31-33 of the director hook: if the request header carries no
`"User-Agent"` key at all, set it to the empty string; otherwise leave it. -/
def setUserAgentIfAbsent (req : Request) : Request :=
  match req.header "User-Agent" with
  | some _ => req
  | none => { req with header := Header.set req.header "User-Agent" "" }

/-- Line 35 of the director hook: append to the `Via` header using the
request protocol version. -/
def addViaHeader (req : Request) : Request :=
  { req with
    header := populateViaHeader req.header
      (httpVersionString req.protoMajor req.protoMinor) }

/-- The additional rewrite step that `NewBackendHandler` installs on top of
the base reverse-proxy director (backend_handler.go lines 22-36): overwrite
`req.Host` with the backend host, default an absent `User-Agent` to the empty
string, then append to `Via`. -/
def backendDirector (backendUrl : URL) (req : Request) : Request :=
  addViaHeader (setUserAgentIfAbsent { req with host := backendUrl.host })

/-- A response body stream: its readable contents, and the error (if any)
that closing it reports. -/
structure Body where
  contents : String
  closeErr : Option String
deriving DecidableEq

/-- Go `ioutil.NopCloser(strings.NewReader(s))`: reads exactly `s`, and `Close`
is a no-op that always returns `nil`. -/
def NopCloser (contents : String) : Body :=
  { contents := contents, closeErr := none }

/-- The parts of a Go `http.Response` that the transport reads or writes. -/
structure Response where
  statusCode : Nat
  protoMajor : Nat
  protoMinor : Nat
  header : Header
  body : Body

/-- Source function `newErrorResponse` (backend_handler.go lines 105-109):
`&http.Response{StatusCode: status}` (all other fields zero-valued, so the
header map is nil) with body `ioutil.NopCloser(strings.NewReader(""))`. -/
def newErrorResponse (status : Nat) : Response :=
  { statusCode := status
    protoMajor := 0
    protoMinor := 0
    header := emptyHeader
    body := NopCloser "" }

/-- A transport-level error value, as `RoundTrip` inspects it: whether the
dynamic type is `*net.OpError`; if so, whether `opErr.Timeout()` holds and
whether `opErr.Err == syscall.ECONNREFUSED`; and the `err.Error()` text. -/
structure NetError where
  isOpError : Bool
  opTimeout : Bool
  opConnRefused : Bool
  msg : String
deriving DecidableEq

/-- Consume the literal `lit` from the front of `cs`, returning the rest. -/
def dropLit : List Char → List Char → Option (List Char)
  | [], cs => some cs
  | _ :: _, [] => none
  | l :: ls, c :: cs => if c = l then dropLit ls cs else none

/-- Consume one or more decimal digits (`\d+`) from the front of `cs`,
returning the rest; fails when the first character is not a digit. -/
def digits1 (cs : List Char) : Option (List Char) :=
  match cs with
  | [] => none
  | c :: rest => if c.isDigit then some (rest.dropWhile Char.isDigit) else none

/-- Whether the regular expression
`http: Request.ContentLength=\d+ with Body length \d+` matches at the very
start of `cs`. Both `\d+` runs are delimited by a following non-digit (a
space or the literal end), so maximal-munch digit consumption is exact. -/
def invalidContentLengthMatchAt (cs : List Char) : Bool :=
  match dropLit "http: Request.ContentLength=".data cs with
  | none => false
  | some rest1 =>
    match digits1 rest1 with
    | none => false
    | some rest2 =>
      match dropLit " with Body length ".data rest2 with
      | none => false
      | some rest3 => (digits1 rest3).isSome

/-- Does `p` hold of some suffix of the list? -/
def anySuffix (p : List Char → Bool) : List Char → Bool
  | [] => p []
  | c :: cs => p (c :: cs) || anySuffix p cs

/-- Go `invalidContentLengthRegexp.MatchString(s)` (backend_handler.go line 70):
unanchored search for `http: Request.ContentLength=\d+ with Body length \d+`. -/
def invalidContentLengthRegexpMatch (s : String) : Bool :=
  anySuffix invalidContentLengthMatchAt s.data

/-- The exact message the code compares against (line 91). -/
def timeoutAwaitingHeadersMsg : String :=
  "net/http: timeout awaiting response headers"

/-- One call to `logger.LogFromBackendRequest`: the `error` and `status`
entries of the detail map it receives. -/
structure LogDetails where
  error : String
  status : Nat
deriving DecidableEq

/-- The outcome of the wrapped `bt.wrapped.RoundTrip(req)` call: either a
response with `err == nil`, or a non-nil error. -/
inductive RoundTripOutcome where
  | success (resp : Response)
  | failure (err : NetError)

/-- What one `backendTransport.RoundTrip` call produces: the returned
response (`none` models a nil pointer), the returned error, and the log
emissions performed during the call, in order. -/
structure RoundTripResult where
  resp : Option Response
  err : Option NetError
  logs : List LogDetails

/-- The error branch of `backendTransport.RoundTrip` (backend_handler.go
lines 76-100). The deferred `LogFromBackendRequest` fires exactly once at
return, reading the detail map `(error: err.Error(), status: 500)` as
mutated by whichever classification branch ran, so each return path below
carries the final status of that branch in both the synthesized response and the
single log entry. -/
def roundTripFailure (err : NetError) : RoundTripResult :=
  if err.isOpError && err.opTimeout then
    { resp := some (newErrorResponse 504), err := none
      logs := [{ error := err.msg, status := 504 }] }
  else if err.isOpError && err.opConnRefused then
    { resp := some (newErrorResponse 502), err := none
      logs := [{ error := err.msg, status := 502 }] }
  else if err.msg = timeoutAwaitingHeadersMsg then
    { resp := some (newErrorResponse 504), err := none
      logs := [{ error := err.msg, status := 504 }] }
  else if invalidContentLengthRegexpMatch err.msg then
    { resp := some (newErrorResponse 400), err := none
      logs := [{ error := err.msg, status := 400 }] }
  else
    { resp := some (newErrorResponse 500), err := none
      logs := [{ error := err.msg, status := 500 }] }

/-- Source method `backendTransport.RoundTrip` (backend_handler.go lines 72-103), with the
wrapped call abstracted by its outcome. On success the `Via` header of the
response is stamped and `(resp, nil)` returned with no log emission; on
failure the error is classified, logged and replaced by a synthesized
response (`roundTripFailure`). -/
def backendTransport.RoundTrip : RoundTripOutcome → RoundTripResult
  | .success resp =>
      { resp := some { resp with
          header := populateViaHeader resp.header
            (httpVersionString resp.protoMajor resp.protoMinor) }
        err := none
        logs := [] }
  | .failure err => roundTripFailure err

/-- Go `time.Duration` (int64 nanoseconds). -/
abbrev Duration : Type := Int

/-- The connection attempt made by the dial function: the arguments it
passes to `net.DialTimeout`. -/
structure DialCall where
  network : String
  address : String
  timeout : Duration
deriving DecidableEq

/-- Go `net.DialTimeout(network, address, timeout)`, abstracted by the bound it
places on the connection attempt. -/
def DialTimeout (network address : String) (timeout : Duration) : DialCall :=
  { network := network, address := address, timeout := timeout }

/-- The `http.Transport` configuration fields that `newBackendTransport`
sets: the dial function, `MaxIdleConnsPerHost`, `ResponseHeaderTimeout`. -/
structure Transport where
  dial : String → String → DialCall
  maxIdleConnsPerHost : Nat
  responseHeaderTimeout : Duration

/-- Source function `newBackendTransport` (backend_handler.go lines 57-68): wraps an
`http.Transport` whose dial function calls `net.DialTimeout` with the
configured connect timeout, with `MaxIdleConnsPerHost = 20` and
`ResponseHeaderTimeout = headerTimeout`. -/
def newBackendTransport (connectTimeout headerTimeout : Duration) : Transport :=
  { dial := fun network address => DialTimeout network address connectTimeout
    maxIdleConnsPerHost := 20
    responseHeaderTimeout := headerTimeout }

/-! ## Helper lemmas -/

theorem Header.set_self (h : Header) (key value : String) :
    Header.set h key value key = some [value] := if_pos rfl

theorem Header.set_other (h : Header) (key value k : String) (hne : k ≠ key) :
    Header.set h key value k = h k := if_neg hne

theorem populateViaHeader_other (h : Header) (v k : String) (hne : k ≠ "Via") :
    populateViaHeader h v k = h k := by
  unfold populateViaHeader
  cases h "Via" <;> exact Header.set_other _ _ _ _ hne

theorem setUserAgentIfAbsent_absent (req : Request)
    (habs : req.header "User-Agent" = none) :
    setUserAgentIfAbsent req =
      { req with header := Header.set req.header "User-Agent" "" } := by
  unfold setUserAgentIfAbsent
  rw [habs]

theorem setUserAgentIfAbsent_present (req : Request) (vs : List String)
    (hpres : req.header "User-Agent" = some vs) :
    setUserAgentIfAbsent req = req := by
  unfold setUserAgentIfAbsent
  rw [hpres]

/-! ## Claim theorems -/

/-- C1: every failed wrapped round trip is classified into exactly one HTTP
status by first-matching ordered rules — (a) `*net.OpError` timeout → 504,
(b) else `*net.OpError` with `ECONNREFUSED` → 502, (c) else the exact
"timeout awaiting response headers" message → 504, (d) else a message
matching the content-length regexp → 400, (e) else 500 — and the returned
response carries exactly that status. -/
theorem roundTrip_error_classification (e : NetError) :
    (backendTransport.RoundTrip (.failure e)).resp = some (newErrorResponse
      (if e.isOpError && e.opTimeout then 504
       else if e.isOpError && e.opConnRefused then 502
       else if e.msg = timeoutAwaitingHeadersMsg then 504
       else if invalidContentLengthRegexpMatch e.msg then 400
       else 500)) := by
  show (roundTripFailure e).resp = _
  unfold roundTripFailure
  split_ifs <;> rfl

/-- C2: for every outcome of the wrapped network call,
`backendTransport.RoundTrip` returns a non-nil response and a nil error:
every failure is recovered locally and nothing is propagated. -/
theorem roundTrip_never_propagates (o : RoundTripOutcome) :
    (backendTransport.RoundTrip o).resp.isSome = true ∧
    (backendTransport.RoundTrip o).err = none := by
  cases o with
  | success r => exact ⟨rfl, rfl⟩
  | failure e =>
      show (roundTripFailure e).resp.isSome = true ∧ (roundTripFailure e).err = none
      unfold roundTripFailure
      split_ifs <;> exact ⟨rfl, rfl⟩

/-- C3: on a failed wrapped round trip exactly one log emission occurs, its
detail map carries the original error text and the final classified status —
the same status the returned response carries; on a successful round trip no
log emission occurs. -/
theorem roundTrip_logging (r : Response) (e : NetError) :
    (backendTransport.RoundTrip (.success r)).logs = [] ∧
    ∃ s, (backendTransport.RoundTrip (.failure e)).resp = some (newErrorResponse s) ∧
      (backendTransport.RoundTrip (.failure e)).logs =
        [{ error := e.msg, status := s }] := by
  refine ⟨rfl, ?_⟩
  show ∃ s, (roundTripFailure e).resp = some (newErrorResponse s) ∧
    (roundTripFailure e).logs = [{ error := e.msg, status := s }]
  unfold roundTripFailure
  split_ifs
  · exact ⟨504, rfl, rfl⟩
  · exact ⟨502, rfl, rfl⟩
  · exact ⟨504, rfl, rfl⟩
  · exact ⟨400, rfl, rfl⟩
  · exact ⟨500, rfl, rfl⟩

/-- C4: `populateViaHeader` sets `Via` to `"<version> router"` when no prior
`Via` entry exists (key absent), and to the prior values joined by `", "`
followed by `", <version> router"` when one or more prior values exist. -/
theorem populateViaHeader_spec (h : Header) (v : String) :
    (h "Via" = none → populateViaHeader h v "Via" = some [v ++ " router"]) ∧
    (∀ prior, h "Via" = some prior → prior ≠ [] →
      populateViaHeader h v "Via" =
        some [String.intercalate ", " prior ++ (", " ++ (v ++ " router"))]) := by
  constructor
  · intro hnone
    unfold populateViaHeader
    rw [hnone]
    exact Header.set_self ..
  · intro prior hsome _
    unfold populateViaHeader
    rw [hsome]
    exact Header.set_self ..

def viaTwoHeader : Header :=
  fun k => if k = "Via" then some ["1.0 alpha", "1.0 beta"] else none

theorem populateViaHeader_spec_witness :
    populateViaHeader emptyHeader "1.1" "Via" = some ["1.1 router"] ∧
    populateViaHeader viaTwoHeader "1.1" "Via" =
      some ["1.0 alpha, 1.0 beta, 1.1 router"] := by
  constructor
  · exact (populateViaHeader_spec emptyHeader "1.1").1 rfl
  · rw [(populateViaHeader_spec viaTwoHeader "1.1").2
      ["1.0 alpha", "1.0 beta"] rfl (by decide)]
    decide

/-- C5: after the rewrite hook runs, the `Host` field of the request equals
the host of the configured backend URL, regardless of the original host. -/
theorem director_sets_host (backendUrl : URL) (req : Request) :
    (backendDirector backendUrl req).host = backendUrl.host := by
  unfold backendDirector
  cases hcase : ({ req with host := backendUrl.host } : Request).header "User-Agent" with
  | some vs =>
      rw [setUserAgentIfAbsent_present ({ req with host := backendUrl.host }) vs hcase]
      rfl
  | none =>
      rw [setUserAgentIfAbsent_absent ({ req with host := backendUrl.host }) hcase]
      rfl

/-- C6: when the inbound request carries no `User-Agent` key, the rewrite
hook sets it to the empty string; when the key is already present (with any
value, including the empty string), its value is left unchanged. -/
theorem director_user_agent (backendUrl : URL) (req : Request) :
    (req.header "User-Agent" = none →
      (backendDirector backendUrl req).header "User-Agent" = some [""]) ∧
    (∀ vs, req.header "User-Agent" = some vs →
      (backendDirector backendUrl req).header "User-Agent" = some vs) := by
  constructor
  · intro habs
    unfold backendDirector
    rw [setUserAgentIfAbsent_absent ({ req with host := backendUrl.host }) habs]
    show populateViaHeader (Header.set req.header "User-Agent" "")
        (httpVersionString req.protoMajor req.protoMinor) "User-Agent" = some [""]
    rw [populateViaHeader_other _ _ "User-Agent" (by decide)]
    exact Header.set_self req.header "User-Agent" ""
  · intro vs hpres
    unfold backendDirector
    rw [setUserAgentIfAbsent_present ({ req with host := backendUrl.host }) vs hpres]
    show populateViaHeader req.header
        (httpVersionString req.protoMajor req.protoMinor) "User-Agent" = some vs
    rw [populateViaHeader_other _ _ "User-Agent" (by decide)]
    exact hpres

def backendUrlW : URL := { scheme := "http", host := "backend.internal", path := "/" }

def reqNoUA : Request :=
  { method := "GET"
    url := { scheme := "http", host := "www.example.com", path := "/x" }
    host := "www.example.com", protoMajor := 1, protoMinor := 1
    header := emptyHeader }

def uaCurlHeader : Header := fun k => if k = "User-Agent" then some ["curl"] else none

def reqWithUA : Request := { reqNoUA with header := uaCurlHeader }

theorem director_user_agent_witness :
    (backendDirector backendUrlW reqNoUA).header "User-Agent" = some [""] ∧
    (backendDirector backendUrlW reqWithUA).header "User-Agent" = some ["curl"] :=
  ⟨(director_user_agent backendUrlW reqNoUA).1 rfl,
   (director_user_agent backendUrlW reqWithUA).2 ["curl"] rfl⟩

/-- C7: `newErrorResponse` returns a response whose status code is the given
status, whose body reads as zero bytes and closes without error, and on
which no headers are set. -/
theorem newErrorResponse_spec (status : Nat) :
    (newErrorResponse status).statusCode = status ∧
    (newErrorResponse status).body.contents = "" ∧
    (newErrorResponse status).body.closeErr = none ∧
    ∀ k, (newErrorResponse status).header k = none :=
  ⟨rfl, rfl, rfl, fun _ => rfl⟩

/-- C8: `newBackendTransport` configures the pooled client with at most 20
idle connections per host, response-header timeout equal to the configured
header timeout, and a dial function that bounds every connection attempt by
the configured connect timeout. -/
theorem newBackendTransport_spec (connectTimeout headerTimeout : Duration) :
    (newBackendTransport connectTimeout headerTimeout).maxIdleConnsPerHost = 20 ∧
    (newBackendTransport connectTimeout headerTimeout).responseHeaderTimeout
      = headerTimeout ∧
    ∀ network address,
      ((newBackendTransport connectTimeout headerTimeout).dial network address).timeout
        = connectTimeout :=
  ⟨rfl, rfl, fun _ _ => rfl⟩

/-- C9: the extra rewrite step mutates only the `Host` field, the
`User-Agent` header (and only when absent), and the `Via` header; every
other header key and every other request field is unchanged. -/
theorem director_frame (backendUrl : URL) (req : Request) :
    (∀ k, k ≠ "User-Agent" → k ≠ "Via" →
      (backendDirector backendUrl req).header k = req.header k) ∧
    (backendDirector backendUrl req).method = req.method ∧
    (backendDirector backendUrl req).url = req.url ∧
    (backendDirector backendUrl req).protoMajor = req.protoMajor ∧
    (backendDirector backendUrl req).protoMinor = req.protoMinor := by
  unfold backendDirector
  cases hcase : ({ req with host := backendUrl.host } : Request).header "User-Agent" with
  | some vs =>
      rw [setUserAgentIfAbsent_present ({ req with host := backendUrl.host }) vs hcase]
      refine ⟨?_, rfl, rfl, rfl, rfl⟩
      intro k hua hvia
      show populateViaHeader req.header
          (httpVersionString req.protoMajor req.protoMinor) k = req.header k
      exact populateViaHeader_other _ _ k hvia
  | none =>
      rw [setUserAgentIfAbsent_absent ({ req with host := backendUrl.host }) hcase]
      refine ⟨?_, rfl, rfl, rfl, rfl⟩
      intro k hua hvia
      show populateViaHeader (Header.set req.header "User-Agent" "")
          (httpVersionString req.protoMajor req.protoMinor) k = req.header k
      rw [populateViaHeader_other _ _ k hvia]
      exact Header.set_other _ _ _ _ hua

def acceptHeader : Header := fun k => if k = "Accept" then some ["text/html"] else none

def reqAccept : Request := { reqNoUA with header := acceptHeader }

theorem director_frame_witness :
    (backendDirector backendUrlW reqAccept).header "Accept" = some ["text/html"] :=
  ((director_frame backendUrlW reqAccept).1 "Accept" (by decide) (by decide)).trans rfl

/-- C10: when the `Via` key is present but maps to an empty value list,
`populateViaHeader` sets `Via` to `", "` followed by the version string and
`" router"` — a leading comma and space, not exactly `"<version> router"`. -/
theorem populateViaHeader_empty_list (h : Header) (v : String)
    (hvia : h "Via" = some []) :
    populateViaHeader h v "Via" = some [", " ++ (v ++ " router")] := by
  unfold populateViaHeader
  rw [hvia]
  exact Header.set_self ..

def viaEmptyListHeader : Header := fun k => if k = "Via" then some [] else none

theorem populateViaHeader_empty_list_witness :
    populateViaHeader viaEmptyListHeader "1.1" "Via" = some [", 1.1 router"] := by
  rw [populateViaHeader_empty_list viaEmptyListHeader "1.1" rfl]
  decide

end Router
